import Mathlib

/-!
Verification of the `alt_names` repository: a shallow embedding of the
CLI/config setup adapters (`src/setup/cli_reader.rs`,
`src/setup/config_reader.rs`) and the orchestration control flow of
`src/lib.rs`, together with spec-level models of the parts of the core
pipeline (source reader counters, upsert loader) whose code is not in the
repository snapshot.
-/

set_option autoImplicit false

namespace AltNames

/-! ## CLI reader (src/setup/cli_reader.rs) -/

/-- The `Flags` struct constructed by `fetch_valid_arguments`
(cli_reader.rs lines 38-61): exactly four booleans. -/
structure Flags where
  import_data : Bool
  export_data : Bool
  initialise : Bool
  test_run : Bool
deriving DecidableEq, Repr, Fintype

/-- The `CliPars` struct returned by `fetch_valid_arguments`
(source file path plus the flags). `PathBuf` is modelled as `String`. -/
structure CliPars where
  source_file : String
  flags : Flags
deriving DecidableEq, Repr

/-- The result of the clap parse in `parse_args` (cli_reader.rs lines
71-117): the value of the `src_file` argument (default `""`) and the four
boolean flags, false when absent. -/
structure ArgMatches where
  src_file : String
  i_flag : Bool
  r_flag : Bool
  x_flag : Bool
  z_flag : Bool
deriving DecidableEq, Repr

/-- Embeds `fetch_valid_arguments` (cli_reader.rs lines 16-68), after the clap
parse has succeeded.  If `i_flag` is set the result is the initialise
mode with an empty source file; otherwise `x_flag` is cleared whenever
`r_flag` is also set, and the import/export/test flags are copied over. -/
def fetch_valid_arguments (m : ArgMatches) : CliPars :=
  if m.i_flag then
    { source_file := ""
      flags :=
        { import_data := false
          export_data := false
          initialise := m.i_flag
          test_run := false } }
  else
    let x_flag := if m.r_flag && m.x_flag then false else m.x_flag
    { source_file := m.src_file
      flags :=
        { import_data := m.r_flag
          export_data := x_flag
          initialise := false
          test_run := m.z_flag } }

/-- One step of the clap token scan: recognised tokens set their flag,
`-s`/`--source` consumes a value, anything else is a parse error
(clap rejects unknown arguments). -/
def parse_tokens : List String → ArgMatches → Option ArgMatches
  | [], m => some m
  | t :: rest, m =>
    if t = "-i" ∨ t = "--install" then parse_tokens rest { m with i_flag := true }
    else if t = "-r" ∨ t = "--import" then parse_tokens rest { m with r_flag := true }
    else if t = "-x" ∨ t = "--filesout" then parse_tokens rest { m with x_flag := true }
    else if t = "-z" ∨ t = "--test" then parse_tokens rest { m with z_flag := true }
    else if t = "-s" ∨ t = "--source" then
      match rest with
      | v :: rest2 => parse_tokens rest2 { m with src_file := v }
      | [] => none
    else none

/-- The initial `ArgMatches`: all flags absent, `src_file` defaulted to
the empty string (cli_reader.rs line 81). -/
def empty_matches : ArgMatches :=
  { src_file := "", i_flag := false, r_flag := false, x_flag := false, z_flag := false }

/-- Embeds `parse_args` (cli_reader.rs lines 71-117): the first element of the
argument vector is the program name; the remaining tokens are scanned. -/
def parse_args : List String → Option ArgMatches
  | [] => none
  | _prog :: rest => parse_tokens rest empty_matches

/-- The whole CLI adapter: clap parse followed by `fetch_valid_arguments`. -/
def cli_pars_of_args (args : List String) : Option CliPars :=
  (parse_args args).map fetch_valid_arguments

/-- Number of mode flags (initialise / import / export) set in a `Flags`
value. -/
def mode_count (f : Flags) : Nat :=
  (if f.initialise then 1 else 0) + (if f.import_data then 1 else 0) +
    (if f.export_data then 1 else 0)

/-! ## Orchestration (src/lib.rs, `run`) -/

/-- The four pipeline phases `run` can invoke. -/
inductive Phase where
  | initialiseP
  | importP
  | summariseP
  | exportP
deriving DecidableEq, Repr, BEq

/-- The sequence of phases `run` invokes (lib.rs lines 38-57) once setup
has succeeded, as a function of the flags and of whether the import and
summarise phases succeed.  `initialise` takes its own branch; otherwise
the import runs when `import_data` is set, `summarise_import` runs after
a successful import only when `test_run` is false (lib.rs line 48), and a
failure of either propagates out of `run` (the `?` operator) before the
export phase, which runs when `export_data` is set. -/
def run_phases (f : Flags) (import_ok summarise_ok : Bool) : List Phase :=
  if f.initialise then [Phase.initialiseP]
  else if f.import_data then
    if import_ok then
      if f.test_run then
        Phase.importP :: (if f.export_data then [Phase.exportP] else [])
      else if summarise_ok then
        Phase.importP :: Phase.summariseP ::
          (if f.export_data then [Phase.exportP] else [])
      else [Phase.importP, Phase.summariseP]
    else [Phase.importP]
  else if f.export_data then [Phase.exportP] else []

/-! ## Configuration reader (src/setup/config_reader.rs) -/

/-- The error type surfaced by the config reader: `AppError::CsErr`
carrying a `CustomError` message.  Other `AppError` variants do not occur
in the embedded functions. -/
inductive AppError where
  | CsErr (msg : String)
deriving DecidableEq, Repr

/-- Embeds `TomlFilePars` (config_reader.rs lines 24-30): the four optional file
parameters as deserialised from the TOML. -/
structure TomlFilePars where
  data_folder_path : Option String
  log_folder_path : Option String
  output_folder_path : Option String
  src_file_name : Option String
deriving DecidableEq, Repr

/-- Embeds `TomlDBPars` (config_reader.rs lines 32-39): the five optional
database parameters as deserialised from the TOML. -/
structure TomlDBPars where
  db_host : Option String
  db_user : Option String
  db_password : Option String
  db_port : Option String
  db_name : Option String
deriving DecidableEq, Repr

/-- Embeds `TomlConfig` (config_reader.rs lines 18-22): the two optional tables. -/
structure TomlConfig where
  files : Option TomlFilePars
  database : Option TomlDBPars
deriving DecidableEq, Repr

/-- Embeds `FilePars` (config_reader.rs lines 46-51); `PathBuf` modelled as
`String`. -/
structure FilePars where
  data_folder_path : String
  log_folder_path : String
  output_folder_path : String
  src_file_name : String
deriving DecidableEq, Repr

/-- Embeds `DBPars` (config_reader.rs lines 53-60); `usize` modelled as `Nat`. -/
structure DBPars where
  db_host : String
  db_user : String
  db_password : String
  db_port : Nat
  db_name : String
deriving DecidableEq, Repr

/-- Embeds `Config` (config_reader.rs lines 41-44). -/
structure Config where
  files : FilePars
  db_pars : DBPars
deriving DecidableEq, Repr

/-- Rust's `str::trim`: strip leading and trailing whitespace.  Written
over the character list so the kernel can evaluate it. -/
def trim_string (s : String) : String :=
  String.mk (((s.data.dropWhile Char.isWhitespace).reverse.dropWhile
    Char.isWhitespace).reverse)

/-- Rust's `"...".parse::<usize>()`: all-digit non-empty strings parse
to their value, anything else is a parse error (the optional `+` sign
and the overflow bound of `usize` are not modelled; no claim depends on
them). -/
def parse_usize (s : String) : Option Nat :=
  if s.data ≠ [] ∧ s.data.all Char.isDigit then
    some (s.data.foldl (fun n c => n * 10 + (c.toNat - 48)) 0)
  else none

/-- Embeds `report_critical_error` (config_reader.rs lines 108-119), printing
aside: builds the `AppError::CsErr` with the standard message. -/
def report_critical_error (error_suffix : String) : AppError :=
  AppError.CsErr ("CRITICAL ERROR - Unable to " ++ error_suffix)

/-- Embeds `check_critical_pathbuf` (config_reader.rs lines 146-167): a missing
value becomes the string `"none"`; the value `"none"` or a value blank
after trimming is a critical error, anything else is returned. -/
def check_critical_pathbuf (src_name : Option String) (_sec2 error_suffix : String) :
    Except AppError String :=
  let s := match src_name with
    | some s => s
    | none => "none"
  if s = "none" ∨ trim_string s = "" then
    Except.error (AppError.CsErr ("CRITICAL ERROR - Unable to " ++ error_suffix))
  else
    Except.ok s

/-- Embeds `check_pathbuf` (config_reader.rs lines 170-187): a missing, `"none"`
or blank value falls back to `alt_path` (the data folder). -/
def check_pathbuf (src_name : Option String) (_folder_type : String) (alt_path : String) :
    String :=
  let s := match src_name with
    | some s => s
    | none => "none"
  if s = "none" ∨ trim_string s = "" then alt_path else s

/-- Embeds `check_critical_db_par` (config_reader.rs lines 215-236): same test
as `check_critical_pathbuf`, with the error message built from
`error_suffix`. -/
def check_critical_db_par (src_name : Option String) (_sec2 error_suffix : String) :
    Except AppError String :=
  let s := match src_name with
    | some s => s
    | none => "none"
  if s = "none" ∨ trim_string s = "" then
    Except.error (AppError.CsErr ("CRITICAL ERROR - Unable to " ++ error_suffix))
  else
    Except.ok s

/-- Embeds `check_db_par` (config_reader.rs lines 239-256): a missing, `"none"`
or blank value falls back to the supplied default string. -/
def check_db_par (src_name : Option String) (_folder_type default_val : String) : String :=
  let s := match src_name with
    | some s => s
    | none => "none"
  if s = "none" ∨ trim_string s = "" then default_val else s

/-- Embeds `verify_file_parameters` (config_reader.rs lines 122-143): the data
folder and source file are critical; log and output folders default to
the data folder. -/
def verify_file_parameters (toml_files : TomlFilePars) : Except AppError FilePars := do
  let data_folder_path ← check_critical_pathbuf toml_files.data_folder_path
    ("read data folder path from config file") ("a value for data_folder_path")
  let src_file_name ← check_critical_pathbuf toml_files.src_file_name
    ("read source file from config file") ("a value for src_file_name")
  let log_folder_path := check_pathbuf toml_files.log_folder_path ("log folder") data_folder_path
  let output_folder_path :=
    check_pathbuf toml_files.output_folder_path ("outputs folder") data_folder_path
  Except.ok
    { data_folder_path := data_folder_path
      log_folder_path := log_folder_path
      output_folder_path := output_folder_path
      src_file_name := src_file_name }

/-- Embeds `verify_db_parameters` (config_reader.rs lines 190-213): user and
password are critical; host, port and name default to `"localhost"`,
`"5432"` and `"geo"`, and a port string that does not parse as an
unsigned integer falls back to 5432 (`unwrap_or_else`). -/
def verify_db_parameters (toml_database : TomlDBPars) : Except AppError DBPars := do
  let db_user ← check_critical_db_par toml_database.db_user
    ("a value for db_user") ("read user name from config file")
  let db_password ← check_critical_db_par toml_database.db_password
    ("a value for db_password") ("read user password from config file")
  let db_host := check_db_par toml_database.db_host ("DB host") ("localhost")
  let db_port_as_string := check_db_par toml_database.db_port ("DB port") ("5432")
  let db_port : Nat := (parse_usize db_port_as_string).getD 5432
  let db_name := check_db_par toml_database.db_name ("DB name") ("geo")
  Except.ok
    { db_host := db_host
      db_user := db_user
      db_password := db_password
      db_port := db_port
      db_name := db_name }

/-- Embeds `populate_config_vars` (config_reader.rs lines 64-105), starting from
the deserialised `TomlConfig` (the `toml::from_str` step is library
code): a missing `[database]` or `[files]` table is a critical error,
then the two verify functions run.  The `DB_PARS.set` side effect does
not change the returned value. -/
def populate_config_vars (toml_config : TomlConfig) : Except AppError Config := do
  let toml_database ← match toml_config.database with
    | some d => Except.ok d
    | none => Except.error (report_critical_error ("read DB parameters from config file"))
  let toml_files ← match toml_config.files with
    | some f => Except.ok f
    | none => Except.error (report_critical_error ("read file parameters from config file"))
  let config_files ← verify_file_parameters toml_files
  let config_db_pars ← verify_db_parameters toml_database
  Except.ok { files := config_files, db_pars := config_db_pars }

/-- Embeds `fetch_db_conn_string` (config_reader.rs lines 272-284): the ambient
`DB_PARS` global is made an explicit argument of the embedding; the
function errors when the global is unset and otherwise builds the
connection string from the stored parameters and the `db_name` argument. -/
def fetch_db_conn_string (db_pars_global : Option DBPars) (db_name : String) :
    Except AppError String :=
  match db_pars_global with
  | none =>
      Except.error
        (AppError.CsErr ("Unable to obtain DB parameters when building connection string"))
  | some p =>
      Except.ok ("postgres://" ++ p.db_user ++ ":" ++ p.db_password ++ "@" ++
        p.db_host ++ ":" ++ toString p.db_port ++ "/" ++ db_name)

/-- A critical parameter is rejected when it is absent, the literal
`"none"`, or blank after trimming (the test shared by
`check_critical_pathbuf` and `check_critical_db_par`). -/
def critical_bad (o : Option String) : Bool :=
  match o with
  | none => true
  | some s => s == "none" || trim_string s == ""

/-- An optional parameter is missing-or-blank (the part of the
defaulting test that claim C9 talks about, without the `"none"` case). -/
def opt_blank (o : Option String) : Bool :=
  match o with
  | none => true
  | some s => trim_string s == ""

/-- A db_port value that is present but does not parse as an unsigned
integer. -/
def port_unparseable (o : Option String) : Bool :=
  match o with
  | none => false
  | some s => (parse_usize s).isNone

/-- The nine TOML configuration parameters. -/
inductive ConfigField where
  | dataFolder
  | logFolder
  | outputFolder
  | srcFile
  | dbHost
  | dbUser
  | dbPassword
  | dbPort
  | dbName
deriving DecidableEq, Repr

/-- Build a `TomlConfig` from full tables with one named parameter set to
`v` (used to compare supplying `"none"` with omitting a parameter). -/
def set_par (f : TomlFilePars) (d : TomlDBPars) (fld : ConfigField) (v : Option String) :
    TomlConfig :=
  match fld with
  | ConfigField.dataFolder => { files := some { f with data_folder_path := v }, database := some d }
  | ConfigField.logFolder => { files := some { f with log_folder_path := v }, database := some d }
  | ConfigField.outputFolder =>
      { files := some { f with output_folder_path := v }, database := some d }
  | ConfigField.srcFile => { files := some { f with src_file_name := v }, database := some d }
  | ConfigField.dbHost => { files := some f, database := some { d with db_host := v } }
  | ConfigField.dbUser => { files := some f, database := some { d with db_user := v } }
  | ConfigField.dbPassword => { files := some f, database := some { d with db_password := v } }
  | ConfigField.dbPort => { files := some f, database := some { d with db_port := v } }
  | ConfigField.dbName => { files := some f, database := some { d with db_name := v } }

/-! ## Spec-level models of core components absent from the snapshot -/

/-- Modelled from the spec: the five boolean mode flags the external
interface section of the spec names (initialise / import / export /
test-run / include-non-Latin), as a record of five independent booleans.
Used to compare the spec's flag set with the `Flags` struct the code
actually produces. -/
structure SpecModeFlags where
  initialise : Bool
  import_data : Bool
  export_data : Bool
  test_run : Bool
  include_non_latin : Bool
deriving DecidableEq, Repr, Fintype

/-- Modelled from the spec: the classification of one raw input unit by
the Source Reader, whose code (`src/import`) is not in the snapshot.  A
unit is fatal (file/structure error), malformed (missing required field
or failed coercion), or a parsed record whose dominant script is
non-Latin or Latin. -/
inductive UnitClass where
  | fatalU
  | malformed
  | nonLatin
  | okLatin
deriving DecidableEq, Repr

/-- The run-level summary counters (read / accepted / rejected /
skipped) of an import run. -/
structure Counters where
  read : Nat
  accepted : Nat
  rejected : Nat
  skipped : Nat
deriving DecidableEq, Repr

/-- The all-zero counters at the start of a run. -/
def zero_counters : Counters :=
  { read := 0, accepted := 0, rejected := 0, skipped := 0 }

/-- Modelled from the spec: the Source Reader loop.  Each unit read
increments `read` and exactly one of the other counters: a malformed
unit is rejected, a non-Latin unit is skipped when inclusion is off and
accepted otherwise, a Latin unit is accepted.  A fatal unit stops
iteration immediately, leaving the counters as they stand. -/
def read_loop (include_non_latin : Bool) : List UnitClass → Counters → Counters
  | [], c => c
  | u :: rest, c =>
    match u with
    | UnitClass.fatalU => c
    | UnitClass.malformed =>
        read_loop include_non_latin rest
          { c with read := c.read + 1, rejected := c.rejected + 1 }
    | UnitClass.nonLatin =>
        if include_non_latin then
          read_loop include_non_latin rest
            { c with read := c.read + 1, accepted := c.accepted + 1 }
        else
          read_loop include_non_latin rest
            { c with read := c.read + 1, skipped := c.skipped + 1 }
    | UnitClass.okLatin =>
        read_loop include_non_latin rest
          { c with read := c.read + 1, accepted := c.accepted + 1 }

/-- Modelled from the spec: one stored record of a target table, an
identifier (the natural uniqueness key) and its payload. -/
structure StoredRec where
  id : Nat
  payload : String
deriving DecidableEq, Repr

/-- A target table: its rows in insertion order, keyed by `id`. -/
abbrev Table := List StoredRec

/-- The keys present in a table. -/
def table_keys (t : Table) : List Nat :=
  t.map (fun r => r.id)

/-- Modelled from the spec: insert-or-update keyed by the table's
natural uniqueness constraint.  An existing row with the same key is
replaced in place; a new key is appended. -/
def upsert (t : Table) (r : StoredRec) : Table :=
  if r.id ∈ table_keys t then
    t.map (fun x => if x.id = r.id then r else x)
  else
    t ++ [r]

/-- Modelled from the spec: the errors a batch insert can surface; a
unique-constraint violation is the one the upsert clause resolves. -/
inductive LoadErr where
  | uniqueViolation
deriving DecidableEq, Repr

/-- Modelled from the spec: one record persisted with the conflict
resolution clause.  A key collision takes the update branch instead of
raising `uniqueViolation`, so the result is always `ok`. -/
def upsert_step (t : Table) (r : StoredRec) : Except LoadErr Table :=
  if r.id ∈ table_keys t then
    Except.ok (t.map (fun x => if x.id = r.id then r else x))
  else
    Except.ok (t ++ [r])

/-- Modelled from the spec: loading a run's records into a table by
folding the upsert over them in source order. -/
def load : Table → List StoredRec → Table
  | t, [] => t
  | t, r :: rest => load (upsert t r) rest

/-- Modelled from the spec: the same load instrumented with the error
channel of `upsert_step`. -/
def loadE : Table → List StoredRec → Except LoadErr Table
  | t, [] => Except.ok t
  | t, r :: rest =>
    match upsert_step t r with
    | Except.ok t2 => loadE t2 rest
    | Except.error e => Except.error e

/-! ## Concrete configurations used as witnesses -/

/-- A file table with the two critical values present and the optional
folders absent. -/
def file_pars_opts_absent : TomlFilePars :=
  { data_folder_path := some ("/data")
    log_folder_path := none
    output_folder_path := none
    src_file_name := some ("s.txt") }

/-- A database table with the two critical values present and the
optional parameters absent. -/
def db_pars_opts_absent : TomlDBPars :=
  { db_host := none
    db_user := some ("u")
    db_password := some ("p")
    db_port := none
    db_name := none }

/-- The config built from the two tables above. -/
def cfg_opts_absent : TomlConfig :=
  { files := some file_pars_opts_absent, database := some db_pars_opts_absent }

/-- The `Config` value `populate_config_vars` produces for
`cfg_opts_absent`: every optional value defaulted. -/
def cfg_opts_absent_result : Config :=
  { files :=
      { data_folder_path := "/data"
        log_folder_path := "/data"
        output_folder_path := "/data"
        src_file_name := "s.txt" }
    db_pars :=
      { db_host := "localhost"
        db_user := "u"
        db_password := "p"
        db_port := 5432
        db_name := "geo" } }

/-- The same database table with a present but unparseable port value. -/
def db_pars_port_bad : TomlDBPars :=
  { db_pars_opts_absent with db_port := some ("not_a_port") }

/-- The config with the unparseable port. -/
def cfg_port_bad : TomlConfig :=
  { files := some file_pars_opts_absent, database := some db_pars_port_bad }

/-- The `Config` value produced for `cfg_port_bad` (identical: the
unparseable port falls back to 5432). -/
def cfg_port_bad_result : Config := cfg_opts_absent_result

/-- A config in which all four critical parameters are present and
non-blank but `db_user` is the literal string `"none"`. -/
def cfg_user_is_none : TomlConfig :=
  { files := some file_pars_opts_absent
    database := some { db_pars_opts_absent with db_user := some ("none") } }

/-! ## Theorems -/

/-- Helper: `fetch_valid_arguments` never sets `import_data` and
`export_data` together — the `r_flag && x_flag` branch clears `x_flag`. -/
theorem fetch_never_import_and_export (m : ArgMatches) :
    ((fetch_valid_arguments m).flags.import_data &&
      (fetch_valid_arguments m).flags.export_data) = false := by
  rcases m with ⟨s, i, r, x, z⟩
  cases i <;> cases r <;> cases x <;> rfl

/-- Claim C2 (code bug): an argument vector with no mode flag selects
zero modes, not one.  `parse_args` leaves all flags false, and
`fetch_valid_arguments` then copies `r_flag = false` into `import_data`
instead of defaulting to import, contradicting the module's own header
comment and its unit test `check_cli_no_explicit_params`. -/
theorem cli_no_mode_flag_selects_zero_modes :
    (cli_pars_of_args [("target/debug/alt_names")]).map (fun c => mode_count c.flags) =
      some 0 := by
  rfl

/-- Claim C3 counterexample: a run with flags parsed from `-r -z`
(import mode, test run) and a successful import never invokes the
summarise phase, so the summariser is not invoked unconditionally after
a successful import. -/
theorem summarise_not_invoked_on_test_run :
    (run_phases
        (fetch_valid_arguments
          { src_file := "", i_flag := false, r_flag := true, x_flag := false,
            z_flag := true }).flags true true).contains Phase.summariseP = false := by
  rfl

/-- Claim C3 (amended): `summarise_import` is invoked exactly when the
initialise branch is not taken, `import_data` is set, the import phase
succeeds, and `test_run` is false (lib.rs line 48 guards the summariser
with `!test_run`). -/
theorem summarise_invoked_iff_import_ok_and_not_test_run :
    ∀ (f : Flags) (import_ok summarise_ok : Bool),
      (run_phases f import_ok summarise_ok).contains Phase.summariseP =
        (!f.initialise && f.import_data && import_ok && !f.test_run) := by
  decide

/-- Claim C4 counterexample: no argument vector parses to flags with
both `import_data` and `export_data` true — when `-r` and `-x` are both
given, `fetch_valid_arguments` clears `x_flag` (cli_reader.rs lines
52-54). -/
theorem no_args_select_import_and_export :
    ¬ ∃ (args : List String) (c : CliPars),
        cli_pars_of_args args = some c ∧
          c.flags.import_data = true ∧ c.flags.export_data = true := by
  rintro ⟨args, c, hc, h1, h2⟩
  unfold cli_pars_of_args at hc
  cases hp : parse_args args with
  | none => rw [hp] at hc; exact Option.noConfusion hc
  | some m =>
      rw [hp] at hc
      have hcm : fetch_valid_arguments m = c := Option.some_inj.mp hc
      have hb := fetch_never_import_and_export m
      rw [hcm, h1, h2] at hb
      exact Bool.noConfusion hb

/-- Claim C4 (amended): the parsed flags never have `import_data` and
`export_data` both true (both `-r` and `-x` yields import only), and
consequently no single invocation's phase list contains both the import
and the export phase. -/
theorem single_invocation_never_imports_and_exports :
    ∀ (m : ArgMatches) (import_ok summarise_ok : Bool),
      ((fetch_valid_arguments m).flags.import_data &&
        (fetch_valid_arguments m).flags.export_data) = false ∧
      (((run_phases (fetch_valid_arguments m).flags import_ok summarise_ok).contains
          Phase.importP) &&
        ((run_phases (fetch_valid_arguments m).flags import_ok summarise_ok).contains
          Phase.exportP)) = false := by
  intro m import_ok summarise_ok
  rcases m with ⟨s, i, r, x, z⟩
  cases i <;> cases r <;> cases x <;> cases z <;>
    cases import_ok <;> cases summarise_ok <;> exact ⟨rfl, rfl⟩

/-- Claim C5 counterexample: the spec's five independent mode booleans
(including include-non-Latin) cannot inject into the code's `Flags`
struct, which has only four booleans (32 > 16 values). -/
theorem no_injection_of_five_flags_into_flags :
    ¬ ∃ g : SpecModeFlags → Flags, Function.Injective g := by
  rintro ⟨g, hg⟩
  have h := Fintype.card_le_of_injective g hg
  have h1 : Fintype.card SpecModeFlags = 32 := by decide
  have h2 : Fintype.card Flags = 16 := by decide
  rw [h1, h2] at h
  omega

/-- Claim C5 (amended): for every parsed argument vector the adapter
produces exactly the four booleans initialise / import / export /
test-run, fully determined as follows; there is no include-non-Latin
flag. -/
theorem fetch_produces_exactly_four_flags :
    ∀ m : ArgMatches,
      (fetch_valid_arguments m).flags =
        (if m.i_flag then
          { import_data := false, export_data := false, initialise := true,
            test_run := false }
        else
          { import_data := m.r_flag, export_data := !m.r_flag && m.x_flag,
            initialise := false, test_run := m.z_flag }) := by
  intro m
  rcases m with ⟨s, i, r, x, z⟩
  cases i <;> cases r <;> cases x <;> rfl

/-- Claim C7 counterexample: `fetch_db_conn_string` called with the same
explicit argument behaves differently depending on the ambient `DB_PARS`
global (unset versus set), so behaviour does not depend only on the
passed arguments. -/
theorem conn_string_differs_across_global_states :
    fetch_db_conn_string none ("geo") ≠
      fetch_db_conn_string
        (some { db_host := "localhost", db_user := "user_name",
                db_password := "password", db_port := 5432, db_name := "geo" })
        ("geo") := by
  intro h
  exact Except.noConfusion h

/-- Claim C7 (amended): `fetch_db_conn_string` reads the process-wide
`DB_PARS` singleton — its behaviour is a function of that ambient state
together with its argument: unset yields an error, set yields the
connection string built from the stored parameters. -/
theorem conn_string_determined_by_global_and_arg :
    ∀ (p : DBPars) (name : String),
      fetch_db_conn_string (some p) name =
        Except.ok ("postgres://" ++ p.db_user ++ ":" ++ p.db_password ++ "@" ++
          p.db_host ++ ":" ++ toString p.db_port ++ "/" ++ name) ∧
      fetch_db_conn_string none name =
        Except.error
          (AppError.CsErr ("Unable to obtain DB parameters when building connection string")) := by
  intro p name
  exact ⟨rfl, rfl⟩

/-- Helper: `check_critical_pathbuf` errors exactly on a bad critical
value and otherwise returns the supplied string. -/
theorem check_critical_pathbuf_eq (o : Option String) (a b : String) :
    check_critical_pathbuf o a b =
      (if critical_bad o then
        Except.error (AppError.CsErr ("CRITICAL ERROR - Unable to " ++ b))
      else Except.ok (o.getD ("none"))) := by
  cases o with
  | none => simp [check_critical_pathbuf, critical_bad]
  | some s =>
      simp only [check_critical_pathbuf, critical_bad, Option.getD]
      by_cases h : s = "none" ∨ trim_string s = ""
      · rw [if_pos h, if_pos]
        simpa using h
      · rw [if_neg h, if_neg]
        simpa using h

/-- Helper: `check_critical_db_par` computes the same test. -/
theorem check_critical_db_par_eq (o : Option String) (a b : String) :
    check_critical_db_par o a b =
      (if critical_bad o then
        Except.error (AppError.CsErr ("CRITICAL ERROR - Unable to " ++ b))
      else Except.ok (o.getD ("none"))) := by
  cases o with
  | none => simp [check_critical_db_par, critical_bad]
  | some s =>
      simp only [check_critical_db_par, critical_bad, Option.getD]
      by_cases h : s = "none" ∨ trim_string s = ""
      · rw [if_pos h, if_pos]
        simpa using h
      · rw [if_neg h, if_neg]
        simpa using h

/-- Helper: `verify_file_parameters` succeeds exactly when both critical
file parameters are good. -/
theorem verify_file_parameters_isOk (f : TomlFilePars) :
    (verify_file_parameters f).isOk =
      (!critical_bad f.data_folder_path && !critical_bad f.src_file_name) := by
  cases h1 : critical_bad f.data_folder_path <;>
    cases h2 : critical_bad f.src_file_name <;>
      simp [verify_file_parameters, check_critical_pathbuf_eq, h1, h2, Except.isOk,
        Except.toBool, bind, Except.bind]

/-- Helper: `verify_db_parameters` succeeds exactly when both critical
database parameters are good. -/
theorem verify_db_parameters_isOk (d : TomlDBPars) :
    (verify_db_parameters d).isOk =
      (!critical_bad d.db_user && !critical_bad d.db_password) := by
  cases h1 : critical_bad d.db_user <;>
    cases h2 : critical_bad d.db_password <;>
      simp [verify_db_parameters, check_critical_db_par_eq, h1, h2, Except.isOk,
        Except.toBool, bind, Except.bind]

/-- Helper: with both tables present, `populate_config_vars` succeeds
exactly when both verify functions succeed. -/
theorem populate_isOk_eq (f : TomlFilePars) (d : TomlDBPars) :
    (populate_config_vars { files := some f, database := some d }).isOk =
      ((verify_file_parameters f).isOk && (verify_db_parameters d).isOk) := by
  cases hf : verify_file_parameters f <;> cases hd : verify_db_parameters d <;>
    simp [populate_config_vars, hf, hd, Except.isOk, Except.toBool, bind, Except.bind]

/-- Claim C8 counterexample: a config in which all four critical
parameters are present and non-blank, but `db_user` is the literal
string `"none"`, still makes `populate_config_vars` return an error —
so present-and-non-blank criticals do not suffice for `Ok`. -/
theorem populate_rejects_present_nonblank_none_user :
    ((trim_string ("none") == "") = false) ∧
      (populate_config_vars cfg_user_is_none).isOk = false := by
  exact ⟨by decide, by decide⟩

/-- Claim C8 (amended): with both tables parsed, `populate_config_vars`
returns `Ok` exactly when each of the four critical parameters —
`data_folder_path`, `src_file_name`, `db_user`, `db_password` — is
present, not blank/whitespace-only, and not the literal `"none"`; it
returns an `Err` (`AppError::CsErr`) whenever any of them is absent,
blank, or `"none"`.  The embedded function is total, so no input
panics. -/
theorem populate_ok_iff_criticals_good :
    ∀ (f : TomlFilePars) (d : TomlDBPars),
      (populate_config_vars { files := some f, database := some d }).isOk =
        (!critical_bad f.data_folder_path && !critical_bad f.src_file_name &&
          !critical_bad d.db_user && !critical_bad d.db_password) := by
  intro f d
  rw [populate_isOk_eq, verify_file_parameters_isOk, verify_db_parameters_isOk]
  cases critical_bad f.data_folder_path <;> cases critical_bad f.src_file_name <;>
    cases critical_bad d.db_user <;> cases critical_bad d.db_password <;> rfl

/-- Helper: a missing or blank optional path falls back to the
alternative path. -/
theorem check_pathbuf_of_blank (o : Option String) (x alt : String)
    (h : opt_blank o = true) : check_pathbuf o x alt = alt := by
  cases o with
  | none => rfl
  | some s =>
      have hs : trim_string s = "" := by
        simpa [opt_blank] using h
      simp [check_pathbuf, hs]

/-- Helper: a missing or blank optional database parameter falls back to
the supplied default. -/
theorem check_db_par_of_blank (o : Option String) (x dflt : String)
    (h : opt_blank o = true) : check_db_par o x dflt = dflt := by
  cases o with
  | none => rfl
  | some s =>
      have hs : trim_string s = "" := by
        simpa [opt_blank] using h
      simp [check_db_par, hs]

/-- Helper: whether the port value is blank-or-missing (defaulted to the
string `"5432"`) or present, non-blank and unparseable (the
`unwrap_or_else` fallback), the resulting port number is 5432. -/
theorem port_default_of_unparseable (o : Option String) (x : String)
    (h : port_unparseable o = true) :
    (parse_usize (check_db_par o x ("5432"))).getD 5432 = 5432 := by
  cases o with
  | none => simp [port_unparseable] at h
  | some s =>
      have hs : parse_usize s = none := by
        simpa [port_unparseable, Option.isNone_iff_eq_none] using h
      unfold check_db_par
      by_cases hc : s = "none" ∨ trim_string s = ""
      · rw [if_pos hc]
        decide
      · rw [if_neg hc, hs]
        rfl

/-- Helper: inverting a successful `populate_config_vars` into the two
verify results. -/
theorem populate_ok_inv (f : TomlFilePars) (d : TomlDBPars) (c : Config)
    (h : populate_config_vars { files := some f, database := some d } = Except.ok c) :
    verify_file_parameters f = Except.ok c.files ∧
      verify_db_parameters d = Except.ok c.db_pars := by
  cases hf : verify_file_parameters f with
  | error e =>
      simp [populate_config_vars, hf, bind, Except.bind] at h
  | ok cf =>
      cases hd : verify_db_parameters d with
      | error e =>
          simp [populate_config_vars, hf, hd, bind, Except.bind] at h
      | ok cd =>
          simp only [populate_config_vars, hf, hd, bind, Except.bind,
            Except.ok.injEq] at h
          rw [← h]
          exact ⟨rfl, rfl⟩

/-- Helper: the log and output folders of a successful
`verify_file_parameters` are the `check_pathbuf` of their TOML values
against the resulting data folder. -/
theorem verify_file_ok_fields (f : TomlFilePars) (cf : FilePars)
    (h : verify_file_parameters f = Except.ok cf) :
    cf.log_folder_path = check_pathbuf f.log_folder_path ("log folder") cf.data_folder_path ∧
      cf.output_folder_path =
        check_pathbuf f.output_folder_path ("outputs folder") cf.data_folder_path := by
  cases h1 : check_critical_pathbuf f.data_folder_path
      ("read data folder path from config file") ("a value for data_folder_path") with
  | error e => simp [verify_file_parameters, h1, bind, Except.bind] at h
  | ok a =>
      cases h2 : check_critical_pathbuf f.src_file_name
          ("read source file from config file") ("a value for src_file_name") with
      | error e => simp [verify_file_parameters, h1, h2, bind, Except.bind] at h
      | ok b =>
          simp only [verify_file_parameters, h1, h2, bind, Except.bind,
            Except.ok.injEq] at h
          rw [← h]
          exact ⟨rfl, rfl⟩

/-- Helper: the host, port and name of a successful
`verify_db_parameters` are the defaulted values of their TOML
parameters. -/
theorem verify_db_ok_fields (d : TomlDBPars) (cd : DBPars)
    (h : verify_db_parameters d = Except.ok cd) :
    cd.db_host = check_db_par d.db_host ("DB host") ("localhost") ∧
      cd.db_port = (parse_usize (check_db_par d.db_port ("DB port") ("5432"))).getD 5432 ∧
      cd.db_name = check_db_par d.db_name ("DB name") ("geo") := by
  cases h1 : check_critical_db_par d.db_user
      ("a value for db_user") ("read user name from config file") with
  | error e => simp [verify_db_parameters, h1, bind, Except.bind] at h
  | ok a =>
      cases h2 : check_critical_db_par d.db_password
          ("a value for db_password") ("read user password from config file") with
      | error e => simp [verify_db_parameters, h1, h2, bind, Except.bind] at h
      | ok b =>
          simp only [verify_db_parameters, h1, h2, bind, Except.bind,
            Except.ok.injEq] at h
          rw [← h]
          exact ⟨rfl, rfl, rfl⟩

/-- Claim C9: in every successful `populate_config_vars`, a missing or
blank `log_folder_path` or `output_folder_path` defaults to the data
folder, a missing or blank `db_host` defaults to `"localhost"`,
`db_name` to `"geo"`, `db_port` to 5432, and a present but unparseable
`db_port` also yields 5432. -/
theorem populate_applies_defaults :
    ∀ (f : TomlFilePars) (d : TomlDBPars) (c : Config),
      populate_config_vars { files := some f, database := some d } = Except.ok c →
      (opt_blank f.log_folder_path = true →
        c.files.log_folder_path = c.files.data_folder_path) ∧
      (opt_blank f.output_folder_path = true →
        c.files.output_folder_path = c.files.data_folder_path) ∧
      (opt_blank d.db_host = true → c.db_pars.db_host = "localhost") ∧
      (opt_blank d.db_name = true → c.db_pars.db_name = "geo") ∧
      (opt_blank d.db_port = true → c.db_pars.db_port = 5432) ∧
      (port_unparseable d.db_port = true → c.db_pars.db_port = 5432) := by
  intro f d c h
  obtain ⟨hf, hd⟩ := populate_ok_inv f d c h
  obtain ⟨hl, ho⟩ := verify_file_ok_fields f c.files hf
  obtain ⟨hh, hp, hn⟩ := verify_db_ok_fields d c.db_pars hd
  refine ⟨?_, ?_, ?_, ?_, ?_, ?_⟩
  · intro hb
    rw [hl, check_pathbuf_of_blank _ _ _ hb]
  · intro hb
    rw [ho, check_pathbuf_of_blank _ _ _ hb]
  · intro hb
    rw [hh, check_db_par_of_blank _ _ _ hb]
  · intro hb
    rw [hn, check_db_par_of_blank _ _ _ hb]
  · intro hb
    rw [hp, check_db_par_of_blank _ _ _ hb]
    decide
  · intro hb
    rw [hp, port_default_of_unparseable _ _ hb]

/-- Witness for claim C9: applying the theorem to a concrete config with
the optional folders and database parameters absent, and to one with an
unparseable port string, yields the defaulted values. -/
theorem populate_applies_defaults_witness :
    (populate_config_vars cfg_opts_absent = Except.ok cfg_opts_absent_result ∧
      cfg_opts_absent_result.files.log_folder_path =
        cfg_opts_absent_result.files.data_folder_path ∧
      cfg_opts_absent_result.files.output_folder_path =
        cfg_opts_absent_result.files.data_folder_path ∧
      cfg_opts_absent_result.db_pars.db_host = "localhost" ∧
      cfg_opts_absent_result.db_pars.db_name = "geo" ∧
      cfg_opts_absent_result.db_pars.db_port = 5432) ∧
    (populate_config_vars cfg_port_bad = Except.ok cfg_port_bad_result ∧
      cfg_port_bad_result.db_pars.db_port = 5432) := by
  have h1 := populate_applies_defaults file_pars_opts_absent db_pars_opts_absent
    cfg_opts_absent_result rfl
  have h2 := populate_applies_defaults file_pars_opts_absent db_pars_port_bad
    cfg_port_bad_result rfl
  exact ⟨⟨rfl, h1.1 rfl, h1.2.1 rfl, h1.2.2.1 rfl, h1.2.2.2.1 rfl, h1.2.2.2.2.1 rfl⟩,
    ⟨rfl, h2.2.2.2.2.2 rfl⟩⟩

/-- Claim C10: for each of the nine config parameters, supplying the
literal string `"none"` makes `populate_config_vars` behave exactly as
if the parameter were omitted — every check function turns a missing
value into the string `"none"` before testing it, so the two configs
produce identical results (critical parameters error, optional ones
default). -/
theorem none_behaves_as_missing :
    ∀ (f : TomlFilePars) (d : TomlDBPars) (fld : ConfigField),
      populate_config_vars (set_par f d fld (some ("none"))) =
        populate_config_vars (set_par f d fld none) := by
  intro f d fld
  cases fld <;> rfl

/-- Helper: the reader loop preserves the counter-sum invariant
`read = accepted + rejected + skipped`. -/
theorem read_loop_preserves_sum (incl : Bool) (units : List UnitClass) (c : Counters)
    (h : c.read = c.accepted + c.rejected + c.skipped) :
    (read_loop incl units c).read =
      (read_loop incl units c).accepted + (read_loop incl units c).rejected +
        (read_loop incl units c).skipped := by
  induction units generalizing c with
  | nil => exact h
  | cons u rest ih =>
      cases u with
      | fatalU => exact h
      | malformed =>
          apply ih
          simp only []
          omega
      | nonLatin =>
          cases incl with
          | true =>
              simp only [read_loop, if_pos]
              apply ih
              simp only []
              omega
          | false =>
              simp only [read_loop, if_neg]
              apply ih
              simp only []
              omega
      | okLatin =>
          apply ih
          simp only []
          omega

/-- Claim C1 (modelled from the spec: the Source Reader / counter code
is not in the snapshot): for every inclusion flag and every source-unit
sequence, the summary counters of a run started from zero satisfy
`read = accepted + rejected + skipped`. -/
theorem import_counters_sum :
    ∀ (include_non_latin : Bool) (units : List UnitClass),
      (read_loop include_non_latin units zero_counters).read =
        (read_loop include_non_latin units zero_counters).accepted +
          (read_loop include_non_latin units zero_counters).rejected +
          (read_loop include_non_latin units zero_counters).skipped := by
  intro incl units
  exact read_loop_preserves_sum incl units zero_counters rfl

/-- Helper: upserting never changes the key set when the key is already
present, and otherwise appends it. -/
theorem table_keys_upsert (t : Table) (r : StoredRec) :
    table_keys (upsert t r) =
      (if r.id ∈ table_keys t then table_keys t else table_keys t ++ [r.id]) := by
  unfold upsert
  by_cases h : r.id ∈ table_keys t
  · rw [if_pos h, if_pos h]
    unfold table_keys
    rw [List.map_map]
    apply List.map_congr_left
    intro x _
    by_cases hid : x.id = r.id
    · simp [hid]
    · simp [hid]
  · rw [if_neg h, if_neg h]
    simp [table_keys]

/-- Helper: the upserted record's key is present afterwards. -/
theorem mem_keys_upsert_self (t : Table) (r : StoredRec) :
    r.id ∈ table_keys (upsert t r) := by
  rw [table_keys_upsert]
  by_cases h : r.id ∈ table_keys t
  · rw [if_pos h]
    exact h
  · rw [if_neg h]
    exact List.mem_append_right _ (List.mem_singleton.mpr rfl)

/-- Helper: upserting preserves existing keys. -/
theorem mem_keys_upsert_mono (t : Table) (r : StoredRec) (k : Nat)
    (h : k ∈ table_keys t) : k ∈ table_keys (upsert t r) := by
  rw [table_keys_upsert]
  by_cases hm : r.id ∈ table_keys t
  · rw [if_pos hm]
    exact h
  · rw [if_neg hm]
    exact List.mem_append_left _ h

/-- Helper: upserting an already-present key does not change the row
count. -/
theorem length_upsert_of_mem (t : Table) (r : StoredRec)
    (h : r.id ∈ table_keys t) : (upsert t r).length = t.length := by
  unfold upsert
  rw [if_pos h]
  exact List.length_map _ _

/-- Helper: loading preserves existing keys. -/
theorem mem_keys_load_mono (rs : List StoredRec) (t : Table) (k : Nat)
    (h : k ∈ table_keys t) : k ∈ table_keys (load t rs) := by
  induction rs generalizing t with
  | nil => exact h
  | cons a rest ih => exact ih (upsert t a) (mem_keys_upsert_mono t a k h)

/-- Helper: after a load, every loaded record's key is present. -/
theorem mem_keys_load (rs : List StoredRec) (t : Table) (r : StoredRec)
    (h : r ∈ rs) : r.id ∈ table_keys (load t rs) := by
  induction rs generalizing t with
  | nil => cases h
  | cons a rest ih =>
      cases h with
      | head =>
          exact mem_keys_load_mono rest (upsert t r) r.id (mem_keys_upsert_self t r)
      | tail _ hmem => exact ih (upsert t a) hmem

/-- Helper: loading records whose keys are all already present does not
change the row count. -/
theorem length_load_of_keys (rs : List StoredRec) (t : Table)
    (h : ∀ r ∈ rs, r.id ∈ table_keys t) : (load t rs).length = t.length := by
  induction rs generalizing t with
  | nil => rfl
  | cons a rest ih =>
      have ha : a.id ∈ table_keys t := h a (List.mem_cons_self a rest)
      have hrest : ∀ r ∈ rest, r.id ∈ table_keys (upsert t a) := fun r hr =>
        mem_keys_upsert_mono t a r.id (h r (List.mem_cons_of_mem a hr))
      calc (load (upsert t a) rest).length = (upsert t a).length := ih (upsert t a) hrest
        _ = t.length := length_upsert_of_mem t a ha

/-- Helper: the conflict-resolving persist step never raises an error. -/
theorem upsert_step_eq (t : Table) (r : StoredRec) :
    upsert_step t r = Except.ok (upsert t r) := by
  unfold upsert_step upsert
  by_cases h : r.id ∈ table_keys t
  · rw [if_pos h, if_pos h]
  · rw [if_neg h, if_neg h]

/-- Helper: the instrumented load always succeeds with the same table as
the plain load. -/
theorem loadE_eq (rs : List StoredRec) (t : Table) :
    loadE t rs = Except.ok (load t rs) := by
  induction rs generalizing t with
  | nil => rfl
  | cons a rest ih =>
      show (match upsert_step t a with
        | Except.ok t2 => loadE t2 rest
        | Except.error e => Except.error e) = _
      rw [upsert_step_eq]
      exact ih (upsert t a)

/-- Claim C6 (modelled from the spec: the Batch Loader code is not in
the snapshot): importing the same record sequence twice into an empty
table leaves the row count equal to the count after the first import,
and the second import surfaces no constraint-violation error — the
upsert resolves every key collision. -/
theorem reimport_preserves_row_count :
    ∀ rs : List StoredRec,
      loadE (load ([] : Table) rs) rs = Except.ok (load (load ([] : Table) rs) rs) ∧
        (load (load ([] : Table) rs) rs).length = (load ([] : Table) rs).length := by
  intro rs
  refine ⟨loadE_eq rs (load ([] : Table) rs), ?_⟩
  exact length_load_of_keys rs (load ([] : Table) rs)
    (fun r hr => mem_keys_load rs ([] : Table) r hr)

end AltNames
